import Mathlib

/-!
Verification of the command-execution core of cargo.nvim.

The definitions below are a shallow embedding of `src/cargo_commands.rs`
and `src/lua_exports.rs`:

* string predicates model the Rust `str::contains`, `str::ends_with` and
  `str::trim().is_empty()` calls used by the interactivity heuristic,
  working over `List Char` so that everything reduces in the kernel;
* `aggStep` / `aggregate` model the output-reading loop of
  `execute_cargo_command_internal` (lines 140-204): the list of
  `OutEvent`s is the sequence of lines the loop actually read from the
  two streams, in the interleaving order the select produced;
* `superviseWait` models the outer select on lines 207-220 that races
  `child.wait()` against `sleep(command_timeout)` and force-kills the
  child when the sleep fires first; the child is abstracted by the time
  at which it would exit (`none` = never) and its exit status;
* `reconcile` models the result processing on lines 236-256;
* `execute_cargo_command_internal` composes the three;
* `cargo_check` and `cargo_run` model the post-processing wrappers on
  lines 259-273 and 304-323 (the Cargo.toml read in `cargo_run` is
  abstracted as an `Option String`: `none` = the file is unreadable);
* `send_input` models the Lua-exported entry point in
  `src/lua_exports.rs` lines 201-209 together with the capacity-32
  bounded channel created on line 113 of `cargo_commands.rs`; the
  channel is abstracted as the list of queued fragments.
-/

/-- Boolean test that the first list is a prefix of the second,
modelling byte-wise prefix comparison on strings. -/
def isPrefixList : List Char → List Char → Bool
  | [], _ => true
  | _ :: _, [] => false
  | p :: ps, c :: cs => p == c && isPrefixList ps cs

/-- Boolean substring occurrence test over character lists: true when
`pat` occurs contiguously inside `s`. -/
def containsList : List Char → List Char → Bool
  | [], pat => pat.isEmpty
  | c :: rest, pat => isPrefixList pat (c :: rest) || containsList rest pat

/-- Model of Rust `str::contains(pat)`: substring occurrence. -/
def strContains (s pat : String) : Bool :=
  containsList s.toList pat.toList

/-- Model of Rust `str::ends_with(pat)`: suffix test. -/
def strEndsWith (s pat : String) : Bool :=
  isPrefixList pat.toList.reverse s.toList.reverse

/-- Model of Rust `line.trim().is_empty()`: every character of the line
is whitespace (in particular, true on the empty line). -/
def trimEmpty (s : String) : Bool :=
  s.toList.all (fun c => c.isWhitespace)

/-- Substring containment as a proposition: `sub` occurs inside `s`. -/
def containsSub (s sub : String) : Prop :=
  ∃ pre post, s = pre ++ (sub ++ post)

/-- The interactivity heuristic applied to one stdout line, from
`src/cargo_commands.rs` lines 153-159: the five pattern checks plus the
empty/whitespace-only-line check, which in the code is part of the same
unconditional disjunction for every command. -/
def isInteractiveLine (line : String) : Bool :=
  strContains line "? [Y/n]" ||
  strContains line "Enter password:" ||
  strContains line "> " ||
  strContains line "[1/3]" ||
  strEndsWith line "? " ||
  trimEmpty line

/-- The pattern list as the specification words it for commands other
than `run`: the five pattern checks WITHOUT the empty-line rule (the
spec restricts the empty-line rule to the `run` subcommand). This
definition follows the spec, not the source, and exists only to be
compared against `isInteractiveLine`. -/
def specInteractivePattern (line : String) : Bool :=
  strContains line "? [Y/n]" ||
  strContains line "Enter password:" ||
  strContains line "> " ||
  strContains line "[1/3]" ||
  strEndsWith line "? "

/-- Default timeout in seconds per command when the caller supplies
none, from `src/cargo_commands.rs` lines 79-86. -/
def defaultTimeoutSecs (command : String) : Nat :=
  if command = "run" then 300
  else if command = "test" then 300
  else if command = "bench" then 600
  else 120

/-- Effective timeout: the caller-supplied duration when present,
otherwise the per-command default (line 79). -/
def effTimeout (command : String) (tOver : Option Nat) : Nat :=
  tOver.getD (defaultTimeoutSecs command)

/-- One line read by the output loop, tagged with the stream it came
from. -/
inductive OutEvent where
  | out (line : String)
  | err (line : String)
deriving DecidableEq, Repr

/-- State of the output-aggregation loop: the accumulated transcript
and the interactivity flag. -/
structure AggState where
  combined_output : String
  is_interactive : Bool
deriving DecidableEq, Repr

/-- One iteration of the output loop (lines 147-182): a stdout line is
tested against the heuristic (only when the flag is still false, which
is equivalent to a boolean or) and appended with a newline; a stderr
line is appended with a newline and never tested. -/
def aggStep (s : AggState) (e : OutEvent) : AggState :=
  match e with
  | OutEvent.out line =>
      { combined_output := s.combined_output ++ line ++ "\n",
        is_interactive := s.is_interactive || isInteractiveLine line }
  | OutEvent.err line =>
      { combined_output := s.combined_output ++ line ++ "\n",
        is_interactive := s.is_interactive }

/-- Whether an event can set the interactivity flag: only stdout lines
are tested by the heuristic. -/
def eventSetsFlag (e : OutEvent) : Bool :=
  match e with
  | OutEvent.out line => isInteractiveLine line
  | OutEvent.err _ => false

/-- The whole output loop over the sequence of lines it read: the flag
starts true exactly for the `run` command (lines 101-107), the
transcript starts empty (line 137). -/
def aggregate (command : String) (events : List OutEvent) : AggState :=
  events.foldl aggStep
    { combined_output := "", is_interactive := command == "run" }

/-- Abstracted child behavior: the time in seconds at which the child
would exit on its own (`none` = it never exits) and whether that exit
status is success. -/
structure ChildBehavior where
  exitsAt : Option Nat
  exitSuccess : Bool
deriving DecidableEq, Repr

/-- Result of the supervisor race: the pair pushed into
`process_status` on lines 208-220 plus whether `child.kill()` ran. -/
structure SupervisorResult where
  success : Bool
  timedOut : Bool
  killed : Bool
deriving DecidableEq, Repr

/-- The outer select of lines 207-220: `child.wait()` races
`sleep(command_timeout)`. When the child exits before the timeout the
status is its own; otherwise the sleep fires, the child is killed and
the pair `(false, true)` is produced. The sleep is unconditional: it
does not consult the interactivity flag. -/
def superviseWait (timeoutSecs : Nat) (child : ChildBehavior) : SupervisorResult :=
  match child.exitsAt with
  | some t =>
      if t < timeoutSecs then
        { success := child.exitSuccess, timedOut := false, killed := false }
      else
        { success := false, timedOut := true, killed := true }
  | none => { success := false, timedOut := true, killed := true }

/-- Errors produced by the command runner; the Rust code wraps every
message in `LuaError::RuntimeError`. -/
inductive CargoError where
  | runtime (msg : String)
deriving DecidableEq, Repr

/-- Result processing of lines 236-256: a timeout while non-interactive
is a timeout error naming the command and the timeout in seconds; a
failed exit while non-interactive is a failure error naming the command
and the transcript; everything else is success carrying the transcript
and the flag. -/
def reconcile (command : String) (timeoutSecs : Nat)
    (processSuccess processTimeout : Bool)
    (finalOutput : String) (interactive : Bool) :
    Except CargoError (String × Bool) :=
  if processTimeout && !interactive then
    Except.error (CargoError.runtime
      ("cargo " ++ command ++ " timed out after " ++
        toString timeoutSecs ++ " seconds"))
  else if !processSuccess && !interactive then
    Except.error (CargoError.runtime
      ("cargo " ++ command ++ " failed: " ++ finalOutput))
  else
    Except.ok (finalOutput, interactive)

/-- Outcome of one session: the returned result plus whether the child
was force-killed. -/
structure SessionOutcome where
  result : Except CargoError (String × Bool)
  childKilled : Bool
deriving Repr

/-- Model of `execute_cargo_command_internal` (lines 65-257) on the
main path, parameterised by the lines the output loop read and by the
abstract child behavior. -/
def execute_cargo_command_internal (command : String) (tOver : Option Nat)
    (events : List OutEvent) (child : ChildBehavior) : SessionOutcome :=
  let agg := aggregate command events
  let sup := superviseWait (effTimeout command tOver) child
  { result := reconcile command (effTimeout command tOver)
      sup.success sup.timedOut agg.combined_output agg.is_interactive,
    childKilled := sup.killed }

/-- The canned message substituted by `cargo_check` on an empty
transcript (line 268). -/
def finishedMessage : String :=
  "Finished `dev` profile [unoptimized + debuginfo] target(s) in 0.00s"

/-- Model of `cargo_check` (lines 260-273): post-processing of the
internal result; a successful result whose transcript trims to empty is
replaced by the canned finished message, the flag kept. -/
def cargo_check (internal : Except CargoError (String × Bool)) :
    Except CargoError (String × Bool) :=
  match internal with
  | Except.ok (output, interactive) =>
      if trimEmpty output then Except.ok (finishedMessage, interactive)
      else Except.ok (output, interactive)
  | Except.error e => Except.error e

/-- Model of `cargo_run` (lines 305-323): post-processing of the
internal result; when Cargo.toml is readable and mentions proconio the
flag is forced true, otherwise the result is returned unchanged. Errors
propagate unchanged. -/
def cargo_run (cargoToml : Option String)
    (internal : Except CargoError (String × Bool)) :
    Except CargoError (String × Bool) :=
  match internal with
  | Except.ok (output, interactive) =>
      let hasProconio :=
        match cargoToml with
        | some content => strContains content "proconio"
        | none => false
      if hasProconio then Except.ok (output, true)
      else Except.ok (output, interactive)
  | Except.error e => Except.error e

/-- State visible to `send_input`: the process-wide registry slot,
holding the queue of the active session when one is installed. -/
structure InputState where
  sender : Option (List String)
deriving DecidableEq, Repr

/-- Capacity of the bounded input channel, from
`mpsc::channel::<String>(32)` on line 113 of `cargo_commands.rs`. -/
def queueCapacity : Nat := 32

/-- Model of the Lua `send_input` function (`src/lua_exports.rs` lines
201-209): when no sender is installed nothing happens; otherwise
`try_send` appends to the queue when there is room and silently drops
the fragment when the queue is full. The function is total and returns
the new state: it cannot block, panic or return an error. -/
def send_input (st : InputState) (text : String) : InputState :=
  match st.sender with
  | none => st
  | some q =>
      if q.length < queueCapacity then { sender := some (q ++ [text]) }
      else st

/-! ## Helper lemmas about the output loop and the supervisor -/

/-- The flag after the loop is the initial flag or-ed with whether any
stdout line satisfies the heuristic. -/
theorem foldl_aggStep_is_interactive (events : List OutEvent) :
    ∀ s : AggState, (events.foldl aggStep s).is_interactive =
      (s.is_interactive || events.any eventSetsFlag) := by
  induction events with
  | nil => intro s; simp
  | cons e es ih =>
    intro s
    cases e with
    | out line =>
      simp [List.foldl_cons, aggStep, ih, eventSetsFlag, Bool.or_assoc]
    | err line =>
      simp [List.foldl_cons, aggStep, ih, eventSetsFlag]

/-- The loop only ever appends to the transcript. -/
theorem foldl_aggStep_output (events : List OutEvent) :
    ∀ s : AggState, ∃ t,
      (events.foldl aggStep s).combined_output = s.combined_output ++ t := by
  induction events with
  | nil =>
    intro s
    exact ⟨"", (String.append_empty s.combined_output).symm⟩
  | cons e es ih =>
    intro s
    obtain ⟨t, ht⟩ := ih (aggStep s e)
    cases e with
    | out line =>
      refine ⟨line ++ "\n" ++ t, ?_⟩
      rw [List.foldl_cons, ht]
      simp [aggStep, String.append_assoc]
    | err line =>
      refine ⟨line ++ "\n" ++ t, ?_⟩
      rw [List.foldl_cons, ht]
      simp [aggStep, String.append_assoc]

/-- When the supervisor race times out, the whole result record is the
kill record: no success, timed out, child killed. -/
theorem superviseWait_timedOut_result (t : Nat) (c : ChildBehavior)
    (h : (superviseWait t c).timedOut = true) :
    superviseWait t c = { success := false, timedOut := true, killed := true } := by
  unfold superviseWait at h ⊢
  cases hc : c.exitsAt with
  | none => simp
  | some u =>
    simp only [hc] at h ⊢
    by_cases hu : u < t
    · simp [hu] at h
    · simp [hu]

/-! ## Claim theorems -/

/-- C1: the claim says an interactive session may run past the base
timeout (indefinitely, or at least up to three times the base timeout)
without being killed. The code disagrees: the supervisor select kills
the child at the base timeout regardless of the flag. Here the session
is the `run` command (interactive from the start), the default timeout
is 300 seconds, and a child that would exit at 400 seconds (well below
three times the base) is nevertheless killed; only the timeout ERROR is
suppressed, the partial transcript being returned as success. -/
theorem interactive_child_killed_at_base_timeout :
    (aggregate "run" []).is_interactive = true ∧
    effTimeout "run" none = 300 ∧
    400 < 3 * 300 ∧
    (execute_cargo_command_internal "run" none []
      { exitsAt := some 400, exitSuccess := true }).childKilled = true ∧
    (execute_cargo_command_internal "run" none []
      { exitsAt := some 400, exitSuccess := true }).result =
        Except.ok ("", true) := by
  refine ⟨rfl, rfl, by decide, rfl, rfl⟩

/-- C2 counterexample: for the `build` command (not `run`) an empty
stdout line DOES set the interactive flag, although it matches none of
the five spec patterns — the empty-line rule in the code is not
restricted to the `run` subcommand. -/
theorem empty_stdout_line_sets_flag_for_build :
    (aggregate "build" [OutEvent.out ""]).is_interactive = true ∧
    specInteractivePattern "" = false := by
  exact ⟨by decide, by decide⟩

/-- C2 amended: for every command other than `run` the flag after the
output loop is true exactly when some stdout line satisfies the full
code heuristic, which includes the empty/whitespace-only-line rule for
every command (stderr lines never set the flag). -/
theorem interactive_iff_pattern_line (command : String) (events : List OutEvent)
    (h : command ≠ "run") :
    (aggregate command events).is_interactive = true ↔
      ∃ line, OutEvent.out line ∈ events ∧ isInteractiveLine line = true := by
  have hinit : (command == "run") = false := beq_eq_false_iff_ne.mpr h
  rw [aggregate, foldl_aggStep_is_interactive]
  simp only [hinit, Bool.false_or]
  rw [List.any_eq_true]
  constructor
  · rintro ⟨e, he, hf⟩
    cases e with
    | out line => exact ⟨line, he, hf⟩
    | err line => simp [eventSetsFlag] at hf
  · rintro ⟨line, hmem, hline⟩
    exact ⟨OutEvent.out line, hmem, hline⟩

/-- Witness for the amended C2 at a concrete session: `build` with one
stdout line containing a confirmation prompt. -/
theorem interactive_iff_pattern_line_witness :
    (aggregate "build" [OutEvent.out "continue? [Y/n]"]).is_interactive = true :=
  (interactive_iff_pattern_line "build" [OutEvent.out "continue? [Y/n]"]
    (by decide)).mpr ⟨"continue? [Y/n]", by decide, by decide⟩

/-- C3 counterexample: the default timeout for `run` is 300 seconds in
the code, not the 60 seconds the claim states. -/
theorem default_timeout_run_is_not_sixty :
    defaultTimeoutSecs "run" = 300 ∧ defaultTimeoutSecs "run" ≠ 60 := by
  exact ⟨by decide, by decide⟩

/-- C3 amended: the defaults are 300 seconds for `run` and `test`, 600
seconds for `bench` and 120 seconds for every other command, and the
required ordering bench greater-or-equal run and test, both strictly
above all the others, holds. -/
theorem default_timeouts_amended :
    defaultTimeoutSecs "run" = 300 ∧
    defaultTimeoutSecs "test" = 300 ∧
    defaultTimeoutSecs "bench" = 600 ∧
    (∀ c, c ≠ "run" → c ≠ "test" → c ≠ "bench" →
      defaultTimeoutSecs c = 120 ∧
        defaultTimeoutSecs c < defaultTimeoutSecs "run") ∧
    defaultTimeoutSecs "run" ≤ defaultTimeoutSecs "bench" := by
  refine ⟨by decide, by decide, by decide, ?_, by decide⟩
  intro c h1 h2 h3
  have hc : defaultTimeoutSecs c = 120 := by
    simp [defaultTimeoutSecs, h1, h2, h3]
  exact ⟨hc, by rw [hc]; decide⟩

/-- Witness for the amended C3: `build` is none of the three special
commands and gets the 120-second default. -/
theorem default_timeouts_amended_witness :
    defaultTimeoutSecs "build" = 120 :=
  (default_timeouts_amended.2.2.2.1 "build" (by decide) (by decide) (by decide)).1

/-- C4: a child that exits with a failing status before the deadline,
in a session whose flag is true, yields a success result carrying the
transcript and the flag — never an error. -/
theorem nonzero_exit_interactive_not_error (command : String) (tOver : Option Nat)
    (events : List OutEvent) (child : ChildBehavior) (t : Nat)
    (hexit : child.exitsAt = some t) (hlt : t < effTimeout command tOver)
    (hfail : child.exitSuccess = false)
    (hint : (aggregate command events).is_interactive = true) :
    (execute_cargo_command_internal command tOver events child).result =
      Except.ok ((aggregate command events).combined_output, true) := by
  simp [execute_cargo_command_internal, superviseWait, hexit, hlt, reconcile,
    hint, hfail]

/-- Witness for C4: `build` session whose single stdout line matches
the prompt pattern, child failing at 5 seconds with a 120-second
deadline. -/
theorem nonzero_exit_interactive_not_error_witness :
    (execute_cargo_command_internal "build" none [OutEvent.out "> "]
      { exitsAt := some 5, exitSuccess := false }).result =
      Except.ok ((aggregate "build" [OutEvent.out "> "]).combined_output, true) :=
  nonzero_exit_interactive_not_error "build" none [OutEvent.out "> "]
    { exitsAt := some 5, exitSuccess := false } 5 rfl (by decide) rfl (by decide)

/-- C5: a child that exits with a failing status before the deadline,
in a session whose flag is false, yields a failure error whose message
contains both the command name and the full transcript. -/
theorem nonzero_exit_noninteractive_failure (command : String) (tOver : Option Nat)
    (events : List OutEvent) (child : ChildBehavior) (t : Nat)
    (hexit : child.exitsAt = some t) (hlt : t < effTimeout command tOver)
    (hfail : child.exitSuccess = false)
    (hint : (aggregate command events).is_interactive = false) :
    ∃ msg, (execute_cargo_command_internal command tOver events child).result =
        Except.error (CargoError.runtime msg) ∧
      containsSub msg command ∧
      containsSub msg (aggregate command events).combined_output := by
  refine ⟨"cargo " ++ command ++ " failed: " ++
    (aggregate command events).combined_output, ?_, ?_, ?_⟩
  · simp [execute_cargo_command_internal, superviseWait, hexit, hlt, reconcile,
      hint, hfail]
  · exact ⟨"cargo ", " failed: " ++ (aggregate command events).combined_output,
      by rw [String.append_assoc, String.append_assoc]⟩
  · exact ⟨"cargo " ++ command ++ " failed: ", "",
      by rw [String.append_empty]⟩

/-- Witness for C5: `build` session with one stderr line, child failing
at 1 second with a 120-second deadline. -/
theorem nonzero_exit_noninteractive_failure_witness :
    ∃ msg, (execute_cargo_command_internal "build" none [OutEvent.err "boom"]
        { exitsAt := some 1, exitSuccess := false }).result =
        Except.error (CargoError.runtime msg) ∧
      containsSub msg "build" ∧
      containsSub msg (aggregate "build" [OutEvent.err "boom"]).combined_output :=
  nonzero_exit_noninteractive_failure "build" none [OutEvent.err "boom"]
    { exitsAt := some 1, exitSuccess := false } 1 rfl (by decide) rfl (by decide)

/-- C6: when the supervisor deadline fires while the flag is false, the
call returns a timeout error naming the command and the effective
timeout in seconds (which is the elapsed time at the kill), and the
child has been force-killed. -/
theorem timeout_noninteractive_error (command : String) (tOver : Option Nat)
    (events : List OutEvent) (child : ChildBehavior)
    (htO : (superviseWait (effTimeout command tOver) child).timedOut = true)
    (hint : (aggregate command events).is_interactive = false) :
    (execute_cargo_command_internal command tOver events child).result =
      Except.error (CargoError.runtime ("cargo " ++ command ++
        " timed out after " ++ toString (effTimeout command tOver) ++
        " seconds")) ∧
    (execute_cargo_command_internal command tOver events child).childKilled = true := by
  have hres := superviseWait_timedOut_result (effTimeout command tOver) child htO
  constructor
  · simp [execute_cargo_command_internal, hres, reconcile, hint]
  · simp [execute_cargo_command_internal, hres]

/-- Witness for C6: a `build` session with no output whose child never
exits; the 120-second default deadline fires. -/
theorem timeout_noninteractive_error_witness :
    (execute_cargo_command_internal "build" none []
      { exitsAt := none, exitSuccess := false }).result =
      Except.error (CargoError.runtime ("cargo " ++ "build" ++
        " timed out after " ++ toString (effTimeout "build" none) ++
        " seconds")) ∧
    (execute_cargo_command_internal "build" none []
      { exitsAt := none, exitSuccess := false }).childKilled = true :=
  timeout_noninteractive_error "build" none []
    { exitsAt := none, exitSuccess := false } rfl rfl

/-- C7: a successful `check` whose transcript trims to empty yields the
canned finished message (which is not the empty string) with the flag
unchanged; a transcript that does not trim to empty is returned
unchanged. -/
theorem check_empty_transcript_canned (output : String) (interactive : Bool) :
    (trimEmpty output = true →
      cargo_check (Except.ok (output, interactive)) =
        Except.ok (finishedMessage, interactive) ∧ finishedMessage ≠ "") ∧
    (trimEmpty output = false →
      cargo_check (Except.ok (output, interactive)) =
        Except.ok (output, interactive)) := by
  constructor
  · intro h
    exact ⟨by simp [cargo_check, h], by decide⟩
  · intro h
    simp [cargo_check, h]

/-- Witness for C7: the empty transcript of a successful check is
replaced by the canned message. -/
theorem check_empty_transcript_canned_witness :
    cargo_check (Except.ok ("", false)) = Except.ok (finishedMessage, false) :=
  ((check_empty_transcript_canned "" false).1 rfl).1

/-- C8: `send_input` is a total function on the registry state — it
cannot block, panic or return an error — and when no sender is
installed or the 32-entry queue is full it leaves the state unchanged,
silently dropping the fragment. -/
theorem send_input_best_effort (st : InputState) (text : String)
    (h : st.sender = none ∨ ∃ q, st.sender = some q ∧ queueCapacity ≤ q.length) :
    send_input st text = st := by
  cases h with
  | inl hn => simp [send_input, hn]
  | inr hf =>
    obtain ⟨q, hq, hlen⟩ := hf
    simp [send_input, hq, Nat.not_lt.mpr hlen]

/-- Witness for C8: a full queue of 32 fragments drops the next send. -/
theorem send_input_best_effort_witness :
    send_input { sender := some (List.replicate 32 "x") } "y" =
      { sender := some (List.replicate 32 "x") } :=
  send_input_best_effort { sender := some (List.replicate 32 "x") } "y"
    (Or.inr ⟨List.replicate 32 "x", rfl, by decide⟩)

/-- C9: from any intermediate state of the output loop, the rest of the
loop only appends to the transcript, and a flag that is already true is
still true at the end — the transcript is append-only and the flag is
monotone within a session. -/
theorem transcript_append_only_flag_monotone (s : AggState) (events : List OutEvent) :
    (∃ t, (events.foldl aggStep s).combined_output = s.combined_output ++ t) ∧
    (s.is_interactive = true → (events.foldl aggStep s).is_interactive = true) := by
  constructor
  · exact foldl_aggStep_output events s
  · intro h
    rw [foldl_aggStep_is_interactive, h, Bool.true_or]

/-- Witness for C9: a state with the flag already true keeps it true
after a further stderr line. -/
theorem transcript_append_only_flag_monotone_witness :
    (([OutEvent.err "warning"]).foldl aggStep
      { combined_output := "a\n", is_interactive := true }).is_interactive = true :=
  (transcript_append_only_flag_monotone
    { combined_output := "a\n", is_interactive := true } [OutEvent.err "warning"]).2 rfl

/-- C10: when Cargo.toml is readable and contains the substring
proconio, `cargo_run` forces the returned flag to true; when the file
is unreadable or lacks the substring, the underlying successful result
is returned unchanged. -/
theorem run_proconio_forces_interactive (cargoToml : Option String)
    (output : String) (interactive : Bool) :
    ((∃ content, cargoToml = some content ∧
        strContains content "proconio" = true) →
      cargo_run cargoToml (Except.ok (output, interactive)) =
        Except.ok (output, true)) ∧
    ((cargoToml = none ∨
        ∃ content, cargoToml = some content ∧
          strContains content "proconio" = false) →
      cargo_run cargoToml (Except.ok (output, interactive)) =
        Except.ok (output, interactive)) := by
  constructor
  · rintro ⟨content, hc, hp⟩
    simp [cargo_run, hc, hp]
  · rintro (hn | ⟨content, hc, hp⟩)
    · simp [cargo_run, hn]
    · simp [cargo_run, hc, hp]

/-- Witness for C10: a manifest mentioning proconio forces the flag. -/
theorem run_proconio_forces_interactive_witness :
    cargo_run (some "[dependencies] proconio") (Except.ok ("out", false)) =
      Except.ok ("out", true) :=
  (run_proconio_forces_interactive (some "[dependencies] proconio") "out" false).1
    ⟨"[dependencies] proconio", rfl, by decide⟩
